import Mathlib

/-!
Shallow embedding of the core of `src/bot.py` (a Telegram intake/routing bot):
the conversation-flow guard and router (`route_incoming`), the ticket registry
(`create_ticket`, `set_ticket_status`), the working-hours predicate
(`is_working_time`), and the status control (`on_ticket_action`).

Modelling conventions:
- Python dicts used as keyed registries (`data["tickets"]`, `data["staff"]`)
  are embedded as association lists in insertion order; dict insertion of a
  fresh key is list append, in-place mutation of an entry is a keyed map.
- `_now_iso()` timestamps are an explicit `now : String` parameter.
- `random.choice`-based id generation is an explicit candidate stream
  `Nat → String` consumed in order, with a fuel bound standing in for the
  unbounded `while` loop (the loop itself is analysed separately over the
  exact 6-character base-36 id space).
- Network sends that may raise inside `try/except` are an oracle
  `sendOk : Int → Bool` telling, per destination chat id, whether the send
  raises; effects actually emitted are recorded in an `Eff` trace and the
  destinations iterated over are recorded in an `attempts` list.
- The UTC→local timezone conversion `now_utc.astimezone(TZ)` is treated as
  given: `is_working_time` receives the local weekday string and the local
  time of day in seconds. Python `int(...)` applied to the `"HH:MM"` pieces
  is modelled as digit-string parsing.
-/

/-- One ticket record, as inserted by `create_ticket` in `src/bot.py`. -/
structure Ticket where
  id : String
  created_at : String
  user_id : Int
  anonymous : Bool
  category : String
  status : String
  assignee : Option String
  last_update : String
deriving DecidableEq, Repr

/-- A staff entry as stored under `data["staff"]` (built by `asdict(StaffMember(...))`). -/
structure StaffRec where
  user_id : Int
  username : Option String
  name : Option String
deriving DecidableEq, Repr

/-- The persistent document `load_data()` returns: routing group id, staff
directory and the ticket registry (`id -> ticket`). -/
structure BotData where
  group_id : Int
  staff : List StaffRec
  tickets : List (String × Ticket)
deriving DecidableEq, Repr

/-- The per-user `context.user_data` dict: each key either absent or set. -/
structure UserData where
  flow_step : Option String
  anonymous : Option Bool
  category_key : Option String
  category_label : Option String
deriving DecidableEq, Repr

/-- `update.effective_user`: the sender's identity fields used by the router. -/
structure UserInfo where
  id : Int
  full_name : String
  username : Option String
deriving DecidableEq, Repr

/-- The configuration slice the router and working-hours predicate read from
`CFG`: per-weekday intervals and the three reply texts involved. -/
structure Config where
  working_hours : List (String × List (String × String))
  need_start : String
  sent_working : String
  sent_off : String
deriving Repr

/-- First-match association-list lookup: Python `dict.get` on the ticket registry. -/
def lookupTicket : List (String × Ticket) → String → Option Ticket
  | [], _ => none
  | (k, t) :: rest, tid => if k = tid then some t else lookupTicket rest tid

/-- In-place mutation of the dict entry keyed `tid` (Python mutates the ticket dict). -/
def updateAssoc : List (String × Ticket) → String → Ticket → List (String × Ticket)
  | [], _, _ => []
  | (k, t0) :: rest, tid, t =>
      if k = tid then (tid, t) :: updateAssoc rest tid t
      else (k, t0) :: updateAssoc rest tid t

/-- `set_ticket_status(data, tid, status, assignee)` from `src/bot.py` lines 571-578:
returns `False` leaving `data` untouched when the id is unknown, otherwise
overwrites status and assignee, bumps `last_update`, and returns `True`. -/
def set_ticket_status (data : BotData) (tid status : String)
    (assignee : Option String) (now : String) : Bool × BotData :=
  match lookupTicket data.tickets tid with
  | none => (false, data)
  | some t =>
      (true,
       { data with
           tickets := updateAssoc data.tickets tid
             { t with status := status, assignee := assignee, last_update := now } })

/-- Python `str.split(sep)` for a one-character separator, over the
character list (auxiliary accumulator holds the current piece reversed). -/
def splitAux (sep : Char) : List Char → List Char → List (List Char)
  | [], acc => [acc.reverse]
  | c :: rest, acc =>
      if c = sep then acc.reverse :: splitAux sep rest []
      else splitAux sep rest (c :: acc)

/-- `s.split(sep)` as a list of pieces. -/
def splitOnSep (sep : Char) (s : String) : List String :=
  (splitAux sep s.toList []).map fun cs => String.mk cs

/-- Value of one decimal digit character, if it is one. -/
def digitVal (c : Char) : Option Nat :=
  if c.isDigit then some (c.toNat - 48) else none

/-- Python `int(...)` on one piece of an `"HH:MM"` string: the digits read as
a decimal number, failing on an empty or non-digit piece. -/
def parsePiece (s : String) : Option Nat :=
  match s.toList with
  | [] => none
  | cs =>
      cs.foldl
        (fun acc c =>
          match acc, digitVal c with
          | some n, some d => some (n * 10 + d)
          | _, _ => none)
        (some 0)

/-- `sh, sm = map(int, s.split(":"))` followed by `time(sh, sm)`:
requires exactly two pieces, both numeric, hour < 24 and minute < 60
(Python `time` raises `ValueError` outside those ranges, caught by the
surrounding `except`). -/
def parseHM (s : String) : Option (Nat × Nat) :=
  match splitOnSep (Char.ofNat 58) s with
  | [a, b] =>
      match parsePiece a, parsePiece b with
      | some h, some m => if h < 24 && m < 60 then some (h, m) else none
      | _, _ => none
  | _ => none

/-- `(CFG.get("working_hours") or {}).get(dow, [])`. -/
def lookupDow : List (String × List (String × String)) → String → List (String × String)
  | [], _ => []
  | (d, ivs) :: rest, dow => if d = dow then ivs else lookupDow rest dow

/-- The body of the interval loop of `is_working_time`: parse both bounds
(`except: continue` skips an interval that fails to parse) and test
`start_t <= now.time() <= end_t`, both bounds inclusive. -/
def intervalContains (t : Nat) (iv : String × String) : Bool :=
  match parseHM iv.1, parseHM iv.2 with
  | some s, some e =>
      decide (s.1 * 3600 + s.2 * 60 ≤ t ∧ t ≤ e.1 * 3600 + e.2 * 60)
  | _, _ => false

/-- `is_working_time` from `src/bot.py` lines 200-218, at local weekday `dow`
and local time of day `t` in seconds: false when the weekday has no
configured intervals, otherwise true iff some interval parses and contains
`t` inclusively on both ends. -/
def is_working_time (wh : List (String × List (String × String)))
    (dow : String) (t : Nat) : Bool :=
  let intervals := lookupDow wh dow
  if intervals.isEmpty then false
  else intervals.any (intervalContains t)

/-- The `tid = short_ticket_id(); while tid in tickets: tid = short_ticket_id()`
loop of `create_ticket`, over an explicit candidate stream starting at draw
`i`, with `fuel` bounding how many draws we unfold (the Python loop has no cap). -/
def genFreshId (stream : Nat → String) (keys : List String) : Nat → Nat → Option String
  | _, 0 => none
  | i, fuel + 1 =>
      if keys.contains (stream i) then genFreshId stream keys (i + 1) fuel
      else some (stream i)

/-- The ticket dict literal inserted by `create_ticket` (lines 558-567). -/
def mkTicket (tid now : String) (user_id : Int) (anonymous : Bool)
    (category : String) : Ticket :=
  { id := tid
    created_at := now
    user_id := user_id
    anonymous := anonymous
    category := category
    status := "new"
    assignee := none
    last_update := now }

/-- `create_ticket(data, user_id=..., anonymous=..., category=...)` from
`src/bot.py` lines 551-568: draw a fresh id (collision-checked against the
current registry), insert a new record with status `"new"`, return its id.
`none` models the draw loop not having produced a fresh id within `fuel`. -/
def create_ticket (stream : Nat → String) (fuel : Nat) (data : BotData)
    (user_id : Int) (anonymous : Bool) (category : String) (now : String) :
    Option (String × BotData) :=
  match genFreshId stream (data.tickets.map Prod.fst) 0 fuel with
  | none => none
  | some tid =>
      some (tid,
        { data with
            tickets := data.tickets ++ [(tid, mkTicket tid now user_id anonymous category)] })

/-- Observable effects of the router: a reply to the submitting user, a
`send_message` to a chat (with or without the ticket-action keyboard), or a
`msg.copy` to a chat. -/
inductive Eff where
  | reply (text : String)
  | send (chat : Int) (text : String) (withActions : Bool)
  | copyMsg (chat : Int)
deriving DecidableEq, Repr

/-- The header built by `route_incoming` lines 652-667: title with category
label and ticket id; when anonymous, a fixed sender line and a privacy line;
otherwise the sender's full name, `@username` when non-empty, and numeric id. -/
def buildHeader (anonymous : Bool) (user : UserInfo) (catLabel tid : String) : String :=
  let title := "🟦 Нове звернення [" ++ catLabel ++ "] #" ++ tid
  if anonymous then
    String.intercalate "\n" [title, "Від: Анонімно", "🔒 Анонімне звернення"]
  else
    let base := "Від: " ++ user.full_name
    let base :=
      match user.username with
      | some u => if u = "" then base else base ++ " @" ++ u
      | none => base
    String.intercalate "\n" [title, base ++ " (id " ++ toString user.id ++ ")"]

/-- One `try: send_message(...); msg.copy(...) except: pass` block: when the
send to `chat` raises, nothing is delivered there; either way no exception
escapes. -/
def deliver (sendOk : Int → Bool) (chat : Int) (header : String)
    (withActions : Bool) : List Eff :=
  if sendOk chat then [Eff.send chat header withActions, Eff.copyMsg chat] else []

/-- Result of one `route_incoming` invocation: the user state and persistent
data afterwards, the list of destination chat ids a delivery was attempted
to (in iteration order), and the emitted effects. -/
structure RouteOut where
  userData : UserData
  data : BotData
  attempts : List Int
  effs : List Eff
deriving DecidableEq, Repr

/-- Python truthiness of `context.user_data.get("category_label")`:
missing or the empty string. -/
def catFalsy : Option String → Bool
  | none => true
  | some s => s = ""

/-- `route_incoming` from `src/bot.py` lines 632-690. Guard: reply
`need_start` and stop (state and data untouched) when no truthy category
label is stored. Otherwise: create a ticket (the category field receives the
stored *label*), persist, build the header, attempt delivery to the group
(when set) with the action keyboard and to every staff member without it,
each inside its own exception swallow, and finally send the single
working-hours-dependent acknowledgment. `none` models only id-generation
fuel exhaustion. -/
def route_incoming (sendOk : Int → Bool) (stream : Nat → String) (fuel : Nat)
    (cfg : Config) (dow : String) (localSec : Nat) (now : String)
    (ud : UserData) (user : UserInfo) (data : BotData) : Option RouteOut :=
  if catFalsy ud.category_label then
    some { userData := ud, data := data, attempts := [],
           effs := [Eff.reply cfg.need_start] }
  else
    let catLabel := ud.category_label.getD ""
    let anonymous := ud.anonymous.getD false
    match create_ticket stream fuel data user.id anonymous catLabel now with
    | none => none
    | some (tid, data1) =>
        let header := buildHeader anonymous user catLabel tid
        let groupAttempts := if data.group_id ≠ 0 then [data.group_id] else []
        let groupEffs :=
          if data.group_id ≠ 0 then deliver sendOk data.group_id header true else []
        let staffIds := data.staff.map (·.user_id)
        let staffEffs := staffIds.flatMap fun c => deliver sendOk c header false
        let ack :=
          if is_working_time cfg.working_hours dow localSec then cfg.sent_working
          else cfg.sent_off
        some { userData := ud, data := data1,
               attempts := groupAttempts ++ staffIds,
               effs := groupEffs ++ staffEffs ++ [Eff.reply ack] }

/-- `allowed_staff_ids()` from `src/bot.py` lines 228-236: the owner id plus
every staff entry's user id. -/
def allowed_staff_ids (owner : Int) (staff : List StaffRec) : List Int :=
  owner :: staff.map (·.user_id)

/-- Observable effects of the status-control handler `on_ticket_action`:
the initial `q.answer()` ack, an alert popup (`q.answer(text, show_alert=True)`),
or the confirmation reply posted in the group chat. -/
inductive CbEff where
  | answer
  | alert (text : String)
  | replyGroup (text : String)
deriving DecidableEq, Repr

/-- `status_map = {"take": "in_progress", "wait": "waiting", "done": "done"}`. -/
def status_map (action : String) : Option String :=
  if action = "take" then some "in_progress"
  else if action = "wait" then some "waiting"
  else if action = "done" then some "done"
  else none

/-- The Ukrainian status names used in the confirmation text (line 724). -/
def status_ua (status : String) : String :=
  if status = "in_progress" then "Взято в роботу"
  else if status = "waiting" then "Очікуємо"
  else if status = "done" then "Закрито"
  else ""

/-- The confirmation reply text of line 725. -/
def confirmText (tid status assignee : String) : String :=
  "📌 Статус #" ++ tid ++ ": " ++ status_ua status ++
    ". Відповідальна особа: " ++ assignee

/-- `on_ticket_action` from `src/bot.py` lines 693-727: after the initial
callback ack, an invoker outside `allowed_staff_ids` receives the
"Нема доступу." alert and nothing changes; otherwise the callback payload is
split, the action mapped to a status, `set_ticket_status` applied with the
invoker's full name as assignee, an unknown ticket id answered with a
not-found alert, and a successful update confirmed with a group reply. -/
def on_ticket_action (owner : Int) (uid : Int) (fullName : String)
    (cbdata : String) (data : BotData) (now : String) : BotData × List CbEff :=
  if (allowed_staff_ids owner data.staff).contains uid then
    match splitOnSep (Char.ofNat 58) cbdata with
    | [_, action, tid] =>
        match status_map action with
        | none => (data, [CbEff.answer])
        | some status =>
            let r := set_ticket_status data tid status (some fullName) now
            if r.1 then
              (r.2, [CbEff.answer, CbEff.replyGroup (confirmText tid status fullName)])
            else
              (data, [CbEff.answer, CbEff.alert "Звернення не знайдено."])
    | _ => (data, [CbEff.answer])
  else
    (data, [CbEff.answer, CbEff.alert "Нема доступу."])

/-- A sequence of `create_ticket` calls (each followed by `save_data`), one
per `(user_id, anonymous, category)` spec, threading the registry. -/
def create_many (stream : Nat → String) (fuel : Nat) (now : String) :
    List (Int × Bool × String) → BotData → Option (List String × BotData)
  | [], data => some ([], data)
  | (u, a, c) :: rest, data =>
      match create_ticket stream fuel data u a c now with
      | none => none
      | some (tid, data1) =>
          match create_many stream fuel now rest data1 with
          | none => none
          | some (tids, data2) => some (tid :: tids, data2)

/-- The exact value space of `short_ticket_id()` (lines 221-225): strings of
6 characters drawn from `string.digits + string.ascii_lowercase`, i.e. a
36-symbol alphabet, here represented positionally. -/
abbrev TicketId6 := Fin 6 → Fin 36

/-- The `while tid in tickets: tid = short_ticket_id()` loop over the exact
id space, with the registry's key set as a `Finset` and an explicit draw
stream; `fuel` bounds how many draws we unfold — the Python loop itself has
no retry cap and no error path. -/
def genFreshTid (stream : Nat → TicketId6) (keys : Finset TicketId6) :
    Nat → Nat → Option TicketId6
  | _, 0 => none
  | i, fuel + 1 =>
      if stream i ∈ keys then genFreshTid stream keys (i + 1) fuel
      else some (stream i)

/-- `DEFAULT_CATEGORIES` from `src/bot.py` lines 62-69 as `(key, label)` pairs
(the shape `load_categories()` produces from them). -/
def DEFAULT_CATEGORIES : List (String × String) :=
  [("psy", "Психологічна підтримка"),
   ("law", "Юридична допомога"),
   ("edu", "Навчання / SkillsLab_F1"),
   ("hum", "Гуманітарна допомога"),
   ("gbv", "Насильство / Булінг"),
   ("other", "Інше")]

/-- The `context.user_data` state right after `cmd_start` (lines 304-315):
cleared, then `flow_step = "start"`. -/
def cmd_start_ud : UserData :=
  { flow_step := some "start", anonymous := none,
    category_key := none, category_label := none }

/-- `user_data` effect of `on_flow_start` (line 351): `flow_step = "anon"`. -/
def on_flow_start_ud (ud : UserData) : UserData :=
  { ud with flow_step := some "anon" }

/-- `user_data` effect of `on_anonymous_pick` (lines 387-392): store the
boolean and move to the category stage. -/
def on_anonymous_pick_ud (ud : UserData) (yes : Bool) : UserData :=
  { ud with anonymous := some yes, flow_step := some "category" }

/-- `user_data` effect of `on_category_pick` (lines 402-412): an unknown key
leaves the state untouched; a known key stores key and label and moves to
the `"ready"` stage (the stage in which free text is expected). -/
def on_category_pick_ud (cats : List (String × String)) (ud : UserData)
    (key : String) : UserData :=
  match cats.find? (fun p => p.1 == key) with
  | none => ud
  | some p =>
      { ud with category_key := some key, category_label := some p.2,
                flow_step := some "ready" }

/-- `user_data` effect of `cmd_category` (lines 340-343): set
`flow_step = "category"` leaving every other key (including a previously
chosen category label) in place. -/
def cmd_category_ud (ud : UserData) : UserData :=
  { ud with flow_step := some "category" }

/-- `user_data` effect of `on_flow_cancel` / a fresh user: everything cleared. -/
def cleared_ud : UserData :=
  { flow_step := none, anonymous := none, category_key := none, category_label := none }

/-- The replies sent to the submitting user within an effect trace
(`msg.reply_text` calls only). -/
def userReplies (effs : List Eff) : List String :=
  effs.filterMap fun e =>
    match e with
    | Eff.reply t => some t
    | _ => none

/-- The `DEFAULT_CONFIG` slice used here (lines 71-92): Monday-Friday
09:00-18:00, empty weekend, and the three reply texts. -/
def default_config : Config :=
  { working_hours :=
      [("mon", [("09:00", "18:00")]),
       ("tue", [("09:00", "18:00")]),
       ("wed", [("09:00", "18:00")]),
       ("thu", [("09:00", "18:00")]),
       ("fri", [("09:00", "18:00")]),
       ("sat", []),
       ("sun", [])]
    need_start := "Щоб надіслати звернення, натисніть /start і пройдіть короткі кроки."
    sent_working := "✅ Дякуємо! Повідомлення передано команді. Ми відповімо протягом робочого часу."
    sent_off := "✅ Дякуємо! Повідомлення передано команді. Зараз поза робочим часом - ми відповімо у найближчий робочий час." }

/-- A concrete sender used by the concrete-run theorems. -/
def sampleUser : UserInfo := { id := 77, full_name := "Alice Doe", username := some "alice" }

/-- A concrete persistent document: a routing group and two staff members,
empty ticket registry. -/
def sampleData : BotData :=
  { group_id := -100, staff := [⟨42, none, none⟩, ⟨43, none, none⟩], tickets := [] }

/-- A constant id draw stream. -/
def constStream : Nat → String := fun _ => "abc123"

/-- An injective id draw stream (decimal numerals). -/
def natStream : Nat → String := fun n => toString n

/-- The user state reached by the flow
start → not anonymous → category `psy`: the `"ready"` stage. -/
def udReady : UserData :=
  on_category_pick_ud DEFAULT_CATEGORIES
    (on_anonymous_pick_ud (on_flow_start_ud cmd_start_ud) false) "psy"

/-- The same state after the user then issues `/category` (lines 340-343):
the flow step moves back to `"category"` but the chosen label survives. -/
def udCatAgain : UserData := cmd_category_ud udReady

/-- The `"ready"` state reached with the anonymous choice instead. -/
def udReadyAnon : UserData :=
  on_category_pick_ud DEFAULT_CATEGORIES
    (on_anonymous_pick_ud (on_flow_start_ud cmd_start_ud) true) "psy"

/-- A second concrete sender, used to compare anonymised deliveries. -/
def sampleUser2 : UserInfo := { id := 88, full_name := "Bob Roe", username := none }

/-- A default router result, used only as the fallback of `Option.getD`. -/
def emptyRouteOut : RouteOut :=
  { userData := cleared_ud, data := { group_id := 0, staff := [], tickets := [] },
    attempts := [], effs := [] }

/-- A sample one-ticket registry used by concrete-run theorems. -/
def sampleTicket : Ticket := mkTicket "ab" "T0" 5 false "c"

/-- A persistent document holding exactly the sample ticket. -/
def sampleTicketData : BotData :=
  { group_id := 0, staff := [], tickets := [("ab", sampleTicket)] }

/-! ## Registry lemmas -/

theorem lookupTicket_eq_none {ts : List (String × Ticket)} {tid : String} :
    lookupTicket ts tid = none ↔ tid ∉ ts.map Prod.fst := by
  induction ts with
  | nil => simp [lookupTicket]
  | cons p rest ih =>
      obtain ⟨k, t⟩ := p
      by_cases h : k = tid
      · subst h; simp [lookupTicket]
      · simp [lookupTicket, h, ih, Ne.symm h]

theorem lookupTicket_append_of_some {ts ls : List (String × Ticket)} {tid : String}
    {t : Ticket} (h : lookupTicket ts tid = some t) :
    lookupTicket (ts ++ ls) tid = some t := by
  induction ts with
  | nil => simp [lookupTicket] at h
  | cons p rest ih =>
      obtain ⟨k, t0⟩ := p
      by_cases hk : k = tid
      · subst hk; simp [lookupTicket] at h ⊢; exact h
      · simp [lookupTicket, hk] at h ⊢; exact ih h

theorem lookupTicket_append_of_none {ts ls : List (String × Ticket)} {tid : String}
    (h : lookupTicket ts tid = none) :
    lookupTicket (ts ++ ls) tid = lookupTicket ls tid := by
  induction ts with
  | nil => simp [lookupTicket]
  | cons p rest ih =>
      obtain ⟨k, t0⟩ := p
      by_cases hk : k = tid
      · subst hk; simp [lookupTicket] at h
      · simp [lookupTicket, hk] at h ⊢; exact ih h

theorem lookupTicket_updateAssoc_self {ts : List (String × Ticket)} {tid : String}
    {t : Ticket} (t2 : Ticket) (h : lookupTicket ts tid = some t) :
    lookupTicket (updateAssoc ts tid t2) tid = some t2 := by
  induction ts with
  | nil => simp [lookupTicket] at h
  | cons p rest ih =>
      obtain ⟨k, t0⟩ := p
      by_cases hk : k = tid
      · subst hk; simp [lookupTicket, updateAssoc]
      · rw [lookupTicket] at h
        rw [if_neg hk] at h
        rw [updateAssoc, if_neg hk, lookupTicket, if_neg hk]
        exact ih h

theorem lookupTicket_updateAssoc_ne {ts : List (String × Ticket)} {tid x : String}
    (t2 : Ticket) (hx : x ≠ tid) :
    lookupTicket (updateAssoc ts tid t2) x = lookupTicket ts x := by
  induction ts with
  | nil => simp [updateAssoc, lookupTicket]
  | cons p rest ih =>
      obtain ⟨k, t0⟩ := p
      by_cases hk : k = tid
      · subst hk
        rw [updateAssoc, if_pos rfl, lookupTicket, if_neg (Ne.symm hx),
          lookupTicket, if_neg (Ne.symm hx)]
        exact ih
      · rw [updateAssoc, if_neg hk, lookupTicket, lookupTicket]
        by_cases hkx : k = x
        · rw [if_pos hkx, if_pos hkx]
        · rw [if_neg hkx, if_neg hkx]
          exact ih

/-- C4: `set_ticket_status` on an unknown ticket id returns failure and leaves
the whole document (registry included) unchanged; on a known id it returns
success, overwrites that ticket's status and assignee and bumps its
last-update timestamp — for every prior ticket state and every requested
status, with no transition rejected — while every other ticket and the rest
of the document stay as they were. -/
theorem set_ticket_status_spec (data : BotData) (tid status : String)
    (assignee : Option String) (now : String) :
    (lookupTicket data.tickets tid = none →
      set_ticket_status data tid status assignee now = (false, data)) ∧
    (∀ t, lookupTicket data.tickets tid = some t →
      (set_ticket_status data tid status assignee now).1 = true ∧
      lookupTicket (set_ticket_status data tid status assignee now).2.tickets tid =
        some { t with status := status, assignee := assignee, last_update := now } ∧
      (∀ x, x ≠ tid →
        lookupTicket (set_ticket_status data tid status assignee now).2.tickets x =
          lookupTicket data.tickets x) ∧
      (set_ticket_status data tid status assignee now).2.group_id = data.group_id ∧
      (set_ticket_status data tid status assignee now).2.staff = data.staff) := by
  constructor
  · intro h
    simp [set_ticket_status, h]
  · intro t h
    have e : set_ticket_status data tid status assignee now =
        (true,
         { data with tickets := updateAssoc data.tickets tid { t with status := status, assignee := assignee, last_update := now } }) := by
      simp [set_ticket_status, h]
    rw [e]
    exact ⟨rfl, lookupTicket_updateAssoc_self _ h,
      fun x hx => lookupTicket_updateAssoc_ne _ hx, rfl, rfl⟩

/-- Witness for C4: concrete unknown-id and known-id invocations. -/
theorem set_ticket_status_spec_witness :
    set_ticket_status sampleTicketData "zz" "done" (some "Bob") "T1" = (false, sampleTicketData) ∧
    (set_ticket_status sampleTicketData "ab" "done" (some "Bob") "T1").1 = true ∧
    lookupTicket (set_ticket_status sampleTicketData "ab" "done" (some "Bob") "T1").2.tickets "ab" =
      some { sampleTicket with status := "done", assignee := some "Bob", last_update := "T1" } :=
  ⟨(set_ticket_status_spec sampleTicketData "zz" "done" (some "Bob") "T1").1 (by decide),
   ((set_ticket_status_spec sampleTicketData "ab" "done" (some "Bob") "T1").2 sampleTicket (by decide)).1,
   ((set_ticket_status_spec sampleTicketData "ab" "done" (some "Bob") "T1").2 sampleTicket (by decide)).2.1⟩

/-! ## Working hours -/

theorem intervalContains_iff (t : Nat) (iv : String × String) :
    intervalContains t iv = true ↔
      ∃ s e, parseHM iv.1 = some s ∧ parseHM iv.2 = some e ∧
        s.1 * 3600 + s.2 * 60 ≤ t ∧ t ≤ e.1 * 3600 + e.2 * 60 := by
  unfold intervalContains
  cases h1 : parseHM iv.1 <;> cases h2 : parseHM iv.2 <;> simp [h1, h2]

/-- C6: the working-hours predicate holds iff the local time of day lies in
at least one configured interval of the current weekday, with both bounds
inclusive; a weekday with no configured intervals is always non-working.
Concretely, with the default Monday interval 09:00-18:00, 09:00 and 18:00
are working, 08:59 and 18:01 are not, and any Saturday time is non-working. -/
theorem is_working_time_spec :
    (∀ wh dow t, is_working_time wh dow t = true ↔
      ∃ iv ∈ lookupDow wh dow, ∃ s e, parseHM iv.1 = some s ∧ parseHM iv.2 = some e ∧
        s.1 * 3600 + s.2 * 60 ≤ t ∧ t ≤ e.1 * 3600 + e.2 * 60) ∧
    (∀ wh dow t, lookupDow wh dow = [] → is_working_time wh dow t = false) ∧
    is_working_time default_config.working_hours "mon" (9 * 3600) = true ∧
    is_working_time default_config.working_hours "mon" (18 * 3600) = true ∧
    is_working_time default_config.working_hours "mon" (8 * 3600 + 59 * 60) = false ∧
    is_working_time default_config.working_hours "mon" (18 * 3600 + 60) = false ∧
    (∀ t, is_working_time default_config.working_hours "sat" t = false) := by
  have hmain : ∀ wh dow t, is_working_time wh dow t = true ↔
      ∃ iv ∈ lookupDow wh dow, ∃ s e, parseHM iv.1 = some s ∧ parseHM iv.2 = some e ∧
        s.1 * 3600 + s.2 * 60 ≤ t ∧ t ≤ e.1 * 3600 + e.2 * 60 := by
    intro wh dow t
    by_cases h : (lookupDow wh dow).isEmpty
    · rw [List.isEmpty_iff] at h
      simp [is_working_time, h]
    · simp [is_working_time, h, List.any_eq_true, intervalContains_iff]
  have hempty : ∀ wh dow t, lookupDow wh dow = [] → is_working_time wh dow t = false := by
    intro wh dow t h
    simp [is_working_time, h]
  have hsat : lookupDow default_config.working_hours "sat" = [] := by decide
  exact ⟨hmain, hempty, by decide, by decide, by decide, by decide,
    fun t => hempty _ _ t hsat⟩

/-- Witness for C6: the no-interval branch applied to a concrete Sunday
time, and the characterisation applied at a concrete Monday time. -/
theorem is_working_time_spec_witness :
    is_working_time default_config.working_hours "sun" 100 = false ∧
    (is_working_time default_config.working_hours "mon" (10 * 3600) = true ↔
      ∃ iv ∈ lookupDow default_config.working_hours "mon",
        ∃ s e, parseHM iv.1 = some s ∧ parseHM iv.2 = some e ∧
          s.1 * 3600 + s.2 * 60 ≤ 10 * 3600 ∧ 10 * 3600 ≤ e.1 * 3600 + e.2 * 60) :=
  ⟨is_working_time_spec.2.1 default_config.working_hours "sun" 100 (by decide),
   is_working_time_spec.1 default_config.working_hours "mon" (10 * 3600)⟩

/-! ## Fresh-id generation and ticket creation -/

theorem genFreshId_not_mem {stream : Nat → String} {keys : List String}
    {i fuel : Nat} {tid : String} (h : genFreshId stream keys i fuel = some tid) :
    tid ∉ keys := by
  induction fuel generalizing i with
  | zero => simp [genFreshId] at h
  | succ n ih =>
      rw [genFreshId] at h
      by_cases hc : keys.contains (stream i)
      · rw [if_pos hc] at h
        exact ih h
      · rw [if_neg hc] at h
        cases h
        simpa using hc

theorem create_ticket_spec {stream : Nat → String} {fuel : Nat} {data : BotData}
    {u : Int} {a : Bool} {c now tid : String} {d' : BotData}
    (h : create_ticket stream fuel data u a c now = some (tid, d')) :
    tid ∉ data.tickets.map Prod.fst ∧
    d' = { data with tickets := data.tickets ++ [(tid, mkTicket tid now u a c)] } := by
  unfold create_ticket at h
  cases hg : genFreshId stream (data.tickets.map Prod.fst) 0 fuel with
  | none => rw [hg] at h; simp at h
  | some tid0 =>
      rw [hg] at h
      simp only [Option.some.injEq, Prod.mk.injEq] at h
      obtain ⟨rfl, rfl⟩ := h
      exact ⟨genFreshId_not_mem hg, rfl⟩

/-! ## Router case analysis -/

theorem route_incoming_of_catFalsy {sendOk : Int → Bool} {stream : Nat → String}
    {fuel : Nat} {cfg : Config} {dow : String} {ls : Nat} {now : String}
    {ud : UserData} {user : UserInfo} {data : BotData}
    (h : catFalsy ud.category_label = true) :
    route_incoming sendOk stream fuel cfg dow ls now ud user data =
      some { userData := ud, data := data, attempts := [],
             effs := [Eff.reply cfg.need_start] } := by
  simp [route_incoming, h]

theorem route_incoming_of_genFresh {sendOk : Int → Bool} {stream : Nat → String}
    {fuel : Nat} {cfg : Config} {dow : String} {ls : Nat} {now : String}
    {ud : UserData} {user : UserInfo} {data : BotData} {tid : String}
    (h : catFalsy ud.category_label = false)
    (hg : genFreshId stream (data.tickets.map Prod.fst) 0 fuel = some tid) :
    route_incoming sendOk stream fuel cfg dow ls now ud user data =
      some { userData := ud
             data := { data with tickets := data.tickets ++
               [(tid, mkTicket tid now user.id (ud.anonymous.getD false) (ud.category_label.getD ""))] }
             attempts := (if data.group_id ≠ 0 then [data.group_id] else []) ++
               data.staff.map (·.user_id)
             effs := (if data.group_id ≠ 0 then
                 deliver sendOk data.group_id
                   (buildHeader (ud.anonymous.getD false) user (ud.category_label.getD "") tid) true
               else []) ++
               ((data.staff.map (·.user_id)).flatMap fun c =>
                 deliver sendOk c
                   (buildHeader (ud.anonymous.getD false) user (ud.category_label.getD "") tid) false) ++
               [Eff.reply (if is_working_time cfg.working_hours dow ls then cfg.sent_working
                 else cfg.sent_off)] } := by
  simp [route_incoming, h, create_ticket, hg]

theorem route_incoming_of_noFresh {sendOk : Int → Bool} {stream : Nat → String}
    {fuel : Nat} {cfg : Config} {dow : String} {ls : Nat} {now : String}
    {ud : UserData} {user : UserInfo} {data : BotData}
    (h : catFalsy ud.category_label = false)
    (hg : genFreshId stream (data.tickets.map Prod.fst) 0 fuel = none) :
    route_incoming sendOk stream fuel cfg dow ls now ud user data = none := by
  simp [route_incoming, h, create_ticket, hg]

/-! ## Conversation-flow guard (routing precondition) -/

/-- C1 (amended): the router's guard tests only the presence of a truthy
category label — not the flow step. With no truthy label it re-prompts with
`need_start`, leaving the user's state and the whole document untouched (so
a submission in the cleared menu state never creates a ticket); with a label
present it processes the submission and creates exactly one ticket whatever
the flow step is. -/
theorem route_incoming_guard (sendOk : Int → Bool) (stream : Nat → String)
    (fuel : Nat) (cfg : Config) (dow : String) (ls : Nat) (now : String)
    (ud : UserData) (user : UserInfo) (data : BotData) :
    (catFalsy ud.category_label = true →
      route_incoming sendOk stream fuel cfg dow ls now ud user data =
        some { userData := ud, data := data, attempts := [],
               effs := [Eff.reply cfg.need_start] }) ∧
    (catFalsy ud.category_label = false →
      ∀ out, route_incoming sendOk stream fuel cfg dow ls now ud user data = some out →
        out.data.tickets.length = data.tickets.length + 1) := by
  constructor
  · intro h
    exact route_incoming_of_catFalsy h
  · intro h out hr
    cases hg : genFreshId stream (data.tickets.map Prod.fst) 0 fuel with
    | none =>
        rw [route_incoming_of_noFresh h hg] at hr
        cases hr
    | some tid =>
        rw [route_incoming_of_genFresh h hg] at hr
        obtain rfl := Option.some.inj hr
        simp

/-- Counterexample to C1 as stated: after start → not-anonymous → category
`psy` → `/category`, the flow step is `"category"` (not the free-text stage
`"ready"`, the source's name for `await_message`), yet a free-text message
is processed: a ticket is created and no re-prompt is sent. -/
theorem route_incoming_guard_counterexample :
    udCatAgain.flow_step = some "category" ∧
    udCatAgain.flow_step ≠ some "ready" ∧
    (route_incoming (fun _ => true) constStream 1 default_config "mon" 36000 "T0"
        udCatAgain sampleUser sampleData).map
      (fun o => (o.data.tickets.map Prod.fst,
                 o.effs.contains (Eff.reply default_config.need_start))) =
      some (["abc123"], false) := by
  decide

/-- Witness for the amended C1: the refusal branch on the cleared (menu)
state, and the processing branch on the ready state. -/
theorem route_incoming_guard_witness :
    route_incoming (fun _ => true) constStream 1 default_config "mon" 36000 "T0"
        cleared_ud sampleUser sampleData =
      some { userData := cleared_ud, data := sampleData, attempts := [],
             effs := [Eff.reply default_config.need_start] } ∧
    ((route_incoming (fun _ => true) constStream 1 default_config "mon" 36000 "T0"
        udReady sampleUser sampleData).getD emptyRouteOut).data.tickets.length =
      sampleData.tickets.length + 1 :=
  ⟨(route_incoming_guard (fun _ => true) constStream 1 default_config "mon" 36000 "T0"
      cleared_ud sampleUser sampleData).1 (by decide),
   (route_incoming_guard (fun _ => true) constStream 1 default_config "mon" 36000 "T0"
      udReady sampleUser sampleData).2 (by decide) _ (by decide)⟩

/-- C2 (amended): the created ticket's category field stores the stored
category *label* (`category_label`), for every routed submission. -/
theorem route_incoming_stores_label (sendOk : Int → Bool) (stream : Nat → String)
    (fuel : Nat) (cfg : Config) (dow : String) (ls : Nat) (now : String)
    (ud : UserData) (user : UserInfo) (data : BotData) (lbl : String)
    (hl : ud.category_label = some lbl) (hne : lbl ≠ "") :
    ∀ out, route_incoming sendOk stream fuel cfg dow ls now ud user data = some out →
      out.data.tickets.map (fun p => p.2.category) =
        data.tickets.map (fun p => p.2.category) ++ [lbl] := by
  intro out hr
  have hf : catFalsy ud.category_label = false := by
    simp [catFalsy, hl, hne]
  cases hg : genFreshId stream (data.tickets.map Prod.fst) 0 fuel with
  | none =>
      rw [route_incoming_of_noFresh hf hg] at hr
      cases hr
  | some tid =>
      rw [route_incoming_of_genFresh hf hg] at hr
      obtain rfl := Option.some.inj hr
      simp [mkTicket, hl]

/-- Counterexample to C2 as stated: selecting category `psy` yields a ticket
whose category field is the label "Психологічна підтримка", not the key
`"psy"`. -/
theorem route_incoming_stores_label_counterexample :
    udReady.category_key = some "psy" ∧
    (route_incoming (fun _ => true) constStream 1 default_config "mon" 36000 "T0"
        udReady sampleUser sampleData).map
      (fun o => o.data.tickets.map fun p => p.2.category) =
      some ["Психологічна підтримка"] ∧
    ("Психологічна підтримка" : String) ≠ "psy" := by
  decide

/-- Witness for the amended C2 at a concrete routed submission. -/
theorem route_incoming_stores_label_witness :
    ((route_incoming (fun _ => true) constStream 1 default_config "mon" 36000 "T0"
        udReady sampleUser sampleData).getD emptyRouteOut).data.tickets.map
      (fun p => p.2.category) =
      sampleData.tickets.map (fun p => p.2.category) ++ ["Психологічна підтримка"] :=
  route_incoming_stores_label (fun _ => true) constStream 1 default_config "mon" 36000 "T0"
    udReady sampleUser sampleData "Психологічна підтримка" (by decide) (by decide) _ (by decide)

/-- C3 (amended): `route_incoming` never changes the user's conversation
state — in particular it is NOT cleared after a successful routing; the
stage and the cached category survive. -/
theorem route_incoming_preserves_user_state (sendOk : Int → Bool) (stream : Nat → String)
    (fuel : Nat) (cfg : Config) (dow : String) (ls : Nat) (now : String)
    (ud : UserData) (user : UserInfo) (data : BotData) :
    ∀ out, route_incoming sendOk stream fuel cfg dow ls now ud user data = some out →
      out.userData = ud := by
  intro out hr
  by_cases h : catFalsy ud.category_label = true
  · rw [route_incoming_of_catFalsy h] at hr
    obtain rfl := Option.some.inj hr
    rfl
  · have hf : catFalsy ud.category_label = false := by
      simpa using h
    cases hg : genFreshId stream (data.tickets.map Prod.fst) 0 fuel with
    | none =>
        rw [route_incoming_of_noFresh hf hg] at hr
        cases hr
    | some tid =>
        rw [route_incoming_of_genFresh hf hg] at hr
        obtain rfl := Option.some.inj hr
        rfl

/-- Counterexample to C3 as stated: a successfully routed submission (one
ticket created, acknowledgment sent) leaves the state exactly as it was —
still the `"ready"` stage with the category cached — instead of clearing it
back to the menu. -/
theorem route_incoming_preserves_user_state_counterexample :
    (route_incoming (fun _ => true) constStream 1 default_config "mon" 36000 "T0"
        udReady sampleUser sampleData).map
      (fun o => (o.userData, o.data.tickets.length)) = some (udReady, 1) ∧
    udReady.flow_step = some "ready" ∧
    udReady ≠ cleared_ud := by
  decide

/-- Witness for the amended C3 at a concrete routed submission. -/
theorem route_incoming_preserves_user_state_witness :
    ((route_incoming (fun _ => true) constStream 1 default_config "mon" 36000 "T0"
        udReady sampleUser sampleData).getD emptyRouteOut).userData = udReady :=
  route_incoming_preserves_user_state (fun _ => true) constStream 1 default_config
    "mon" 36000 "T0" udReady sampleUser sampleData _ (by decide)

/-! ## Fan-out -/

theorem userReplies_deliver (sendOk : Int → Bool) (c : Int) (hdr : String) (b : Bool) :
    userReplies (deliver sendOk c hdr b) = [] := by
  unfold deliver userReplies
  by_cases h : sendOk c = true <;> simp [h]

theorem userReplies_append (a b : List Eff) :
    userReplies (a ++ b) = userReplies a ++ userReplies b := by
  simp [userReplies]

theorem userReplies_flatMap_deliver (sendOk : Int → Bool) (l : List Int)
    (hdr : String) (b : Bool) :
    userReplies (l.flatMap fun c => deliver sendOk c hdr b) = [] := by
  induction l with
  | nil => simp [userReplies]
  | cons c rest ih =>
      rw [List.flatMap_cons, userReplies_append, userReplies_deliver, ih]
      rfl

/-- C5: for every submission with a category label present, the list of
destinations a delivery is attempted to is the group (when configured)
followed by every staff member — an expression not mentioning the send
oracle at all, so it is the same whichever destinations raise — and the
submitting user receives exactly the single working-hours acknowledgment,
also independent of any delivery failure. Totality of `route_incoming`
(it returns `some _` whatever `sendOk` is) embeds the fact that no send
exception escapes the handler. -/
theorem route_incoming_fanout (sendOk : Int → Bool) (stream : Nat → String)
    (fuel : Nat) (cfg : Config) (dow : String) (ls : Nat) (now : String)
    (ud : UserData) (user : UserInfo) (data : BotData)
    (h : catFalsy ud.category_label = false) :
    ∀ out, route_incoming sendOk stream fuel cfg dow ls now ud user data = some out →
      out.attempts = (if data.group_id ≠ 0 then [data.group_id] else []) ++
        data.staff.map (·.user_id) ∧
      userReplies out.effs =
        [if is_working_time cfg.working_hours dow ls then cfg.sent_working
         else cfg.sent_off] := by
  intro out hr
  cases hg : genFreshId stream (data.tickets.map Prod.fst) 0 fuel with
  | none =>
      rw [route_incoming_of_noFresh h hg] at hr
      cases hr
  | some tid =>
      rw [route_incoming_of_genFresh h hg] at hr
      obtain rfl := Option.some.inj hr
      refine ⟨rfl, ?_⟩
      rw [userReplies_append, userReplies_append, userReplies_flatMap_deliver]
      by_cases hgid : data.group_id ≠ 0
      · rw [if_pos hgid, userReplies_deliver]
        simp [userReplies]
      · rw [if_neg hgid]
        simp [userReplies]

/-- Witness for C5: a concrete fan-out in which the send to staff member 42
raises; the group and staff member 43 are still attempted and the user gets
exactly the working-hours acknowledgment. -/
theorem route_incoming_fanout_witness :
    ((route_incoming (fun c => c ≠ 42) constStream 1 default_config "mon" 36000 "T0"
        udReady sampleUser sampleData).getD emptyRouteOut).attempts =
      (if sampleData.group_id ≠ 0 then [sampleData.group_id] else []) ++
        sampleData.staff.map (·.user_id) ∧
    userReplies ((route_incoming (fun c => c ≠ 42) constStream 1 default_config "mon"
        36000 "T0" udReady sampleUser sampleData).getD emptyRouteOut).effs =
      [if is_working_time default_config.working_hours "mon" 36000 then
        default_config.sent_working else default_config.sent_off] :=
  route_incoming_fanout (fun c => c ≠ 42) constStream 1 default_config "mon" 36000 "T0"
    udReady sampleUser sampleData (by decide) _ (by decide)

/-! ## Anonymity -/

theorem buildHeader_anon (u1 u2 : UserInfo) (cat tid : String) :
    buildHeader true u1 cat tid = buildHeader true u2 cat tid := rfl

/-- C7: with the anonymity flag set, the whole effect trace (headers, copies,
acknowledgment) and attempt list are identical for any two senders — the
constructed header carries no sender name, handle or id — while the ticket
stored in the registry always records the true originating user id, whatever
the anonymity flag is. -/
theorem route_incoming_anonymity :
    (∀ u1 u2 : UserInfo, ∀ cat tid : String,
      buildHeader true u1 cat tid = buildHeader true u2 cat tid) ∧
    (∀ (sendOk : Int → Bool) (stream : Nat → String) (fuel : Nat) (cfg : Config)
      (dow : String) (ls : Nat) (now : String) (ud : UserData)
      (u1 u2 : UserInfo) (data : BotData) (out1 out2 : RouteOut),
      ud.anonymous = some true →
      route_incoming sendOk stream fuel cfg dow ls now ud u1 data = some out1 →
      route_incoming sendOk stream fuel cfg dow ls now ud u2 data = some out2 →
      out1.effs = out2.effs ∧ out1.attempts = out2.attempts) ∧
    (∀ (sendOk : Int → Bool) (stream : Nat → String) (fuel : Nat) (cfg : Config)
      (dow : String) (ls : Nat) (now : String) (ud : UserData)
      (user : UserInfo) (data : BotData) (lbl : String),
      ud.category_label = some lbl → lbl ≠ "" →
      ∀ out, route_incoming sendOk stream fuel cfg dow ls now ud user data = some out →
        out.data.tickets.map (fun p => p.2.user_id) =
          data.tickets.map (fun p => p.2.user_id) ++ [user.id]) := by
  refine ⟨fun u1 u2 cat tid => rfl, ?_, ?_⟩
  · intro sendOk stream fuel cfg dow ls now ud u1 u2 data out1 out2 hanon hr1 hr2
    by_cases h : catFalsy ud.category_label = true
    · rw [route_incoming_of_catFalsy h] at hr1 hr2
      obtain rfl := Option.some.inj hr1
      obtain rfl := Option.some.inj hr2
      exact ⟨rfl, rfl⟩
    · have hf : catFalsy ud.category_label = false := by simpa using h
      cases hg : genFreshId stream (data.tickets.map Prod.fst) 0 fuel with
      | none =>
          rw [route_incoming_of_noFresh hf hg] at hr1
          cases hr1
      | some tid =>
          rw [route_incoming_of_genFresh hf hg] at hr1
          rw [route_incoming_of_genFresh hf hg] at hr2
          obtain rfl := Option.some.inj hr1
          obtain rfl := Option.some.inj hr2
          rw [hanon]
          exact ⟨rfl, rfl⟩
  · intro sendOk stream fuel cfg dow ls now ud user data lbl hl hne out hr
    have hf : catFalsy ud.category_label = false := by
      simp [catFalsy, hl, hne]
    cases hg : genFreshId stream (data.tickets.map Prod.fst) 0 fuel with
    | none =>
        rw [route_incoming_of_noFresh hf hg] at hr
        cases hr
    | some tid =>
        rw [route_incoming_of_genFresh hf hg] at hr
        obtain rfl := Option.some.inj hr
        simp [mkTicket]

/-- Witness for C7: two different senders routed anonymously produce the
same effect trace, and the anonymous ticket still stores the real user id. -/
theorem route_incoming_anonymity_witness :
    (((route_incoming (fun _ => true) constStream 1 default_config "mon" 36000 "T0"
        udReadyAnon sampleUser sampleData).getD emptyRouteOut).effs =
      ((route_incoming (fun _ => true) constStream 1 default_config "mon" 36000 "T0"
        udReadyAnon sampleUser2 sampleData).getD emptyRouteOut).effs) ∧
    ((route_incoming (fun _ => true) constStream 1 default_config "mon" 36000 "T0"
        udReadyAnon sampleUser sampleData).getD emptyRouteOut).data.tickets.map
      (fun p => p.2.user_id) =
      sampleData.tickets.map (fun p => p.2.user_id) ++ [sampleUser.id] :=
  ⟨(route_incoming_anonymity.2.1 (fun _ => true) constStream 1 default_config "mon"
      36000 "T0" udReadyAnon sampleUser sampleUser2 sampleData _ _ (by decide)
      (by decide) (by decide)).1,
   route_incoming_anonymity.2.2 (fun _ => true) constStream 1 default_config "mon"
      36000 "T0" udReadyAnon sampleUser sampleData "Психологічна підтримка"
      (by decide) (by decide) _ (by decide)⟩

/-! ## Status control authorization -/

/-- C8 (amended): a status-control invocation by a user who is neither the
owner nor a listed staff member changes nothing — but it is not silent: the
invoker receives an explicit "Нема доступу." alert
(`q.answer("Нема доступу.", show_alert=True)`, line 702). -/
theorem on_ticket_action_unauthorized (owner uid : Int) (fullName cbdata : String)
    (data : BotData) (now : String)
    (h : uid ∉ allowed_staff_ids owner data.staff) :
    on_ticket_action owner uid fullName cbdata data now =
      (data, [CbEff.answer, CbEff.alert "Нема доступу."]) := by
  have hc : (allowed_staff_ids owner data.staff).contains uid = false := by
    simpa using h
  simp [on_ticket_action, hc, h]

/-- Counterexample to C8 as stated: a non-owner, non-staff invoker (uid 2,
owner 1, empty staff list) changes no status, but an access-denied alert IS
surfaced to them — the handling is not silent. -/
theorem on_ticket_action_unauthorized_counterexample :
    (on_ticket_action 1 2 "Bob" "t:take:ab" sampleTicketData "T1").1 = sampleTicketData ∧
    (on_ticket_action 1 2 "Bob" "t:take:ab" sampleTicketData "T1").2.contains
      (CbEff.alert "Нема доступу.") = true ∧
    (2 : Int) ≠ 1 ∧ sampleTicketData.staff = [] := by
  decide

/-- Witness for the amended C8 at the same concrete invocation. -/
theorem on_ticket_action_unauthorized_witness :
    on_ticket_action 1 2 "Bob" "t:take:ab" sampleTicketData "T1" =
      (sampleTicketData, [CbEff.answer, CbEff.alert "Нема доступу."]) :=
  on_ticket_action_unauthorized 1 2 "Bob" "t:take:ab" sampleTicketData "T1" (by decide)

/-! ## Ticket id uniqueness -/

theorem lookupTicket_of_mem_keys {ts : List (String × Ticket)} {tid : String}
    (h : tid ∈ ts.map Prod.fst) :
    ∃ t, lookupTicket ts tid = some t ∧ (tid, t) ∈ ts := by
  induction ts with
  | nil => simp at h
  | cons p rest ih =>
      obtain ⟨k, t0⟩ := p
      by_cases hk : k = tid
      · subst hk
        exact ⟨t0, by simp [lookupTicket], by simp⟩
      · have h' : tid ∈ rest.map Prod.fst := by
          simpa [hk, Ne.symm hk] using h
        obtain ⟨t, hl, hm⟩ := ih h'
        exact ⟨t, by simpa [lookupTicket, hk] using hl, by simp [hm]⟩

theorem create_many_strong (stream : Nat → String) (fuel : Nat) (now : String) :
    ∀ (specs : List (Int × Bool × String)) (data : BotData)
      (tids : List String) (d' : BotData),
      create_many stream fuel now specs data = some (tids, d') →
      ∃ newE : List (String × Ticket),
        d'.tickets = data.tickets ++ newE ∧
        newE.map Prod.fst = tids ∧
        (∀ p ∈ newE, p.2.status = "new") ∧
        tids.Nodup ∧
        (∀ tid ∈ tids, tid ∉ data.tickets.map Prod.fst) ∧
        tids.length = specs.length := by
  intro specs
  induction specs with
  | nil =>
      intro data tids d' h
      simp only [create_many, Option.some.injEq, Prod.mk.injEq] at h
      obtain ⟨rfl, rfl⟩ := h
      exact ⟨[], by simp, rfl, by simp, by simp, by simp, by simp⟩
  | cons spec rest ih =>
      intro data tids d' h
      obtain ⟨u, a, c⟩ := spec
      rw [create_many] at h
      cases hc : create_ticket stream fuel data u a c now with
      | none =>
          simp only [hc] at h
          exact Option.noConfusion h
      | some pr =>
          obtain ⟨tid, data1⟩ := pr
          simp only [hc] at h
          cases hm : create_many stream fuel now rest data1 with
          | none =>
              simp only [hm] at h
              exact Option.noConfusion h
          | some pr2 =>
              obtain ⟨tids2, data2⟩ := pr2
              simp only [hm, Option.some.injEq, Prod.mk.injEq] at h
              obtain ⟨rfl, rfl⟩ := h
              obtain ⟨hfresh, hdata1⟩ := create_ticket_spec hc
              obtain ⟨newE, hE, hmapE, hstatE, hndE, hninE, hlenE⟩ := ih data1 tids2 data2 hm
              refine ⟨(tid, mkTicket tid now u a c) :: newE, ?_, ?_, ?_, ?_, ?_, ?_⟩
              · rw [hE, hdata1]
                simp
              · simp [hmapE]
              · intro p hp
                rcases List.mem_cons.mp hp with rfl | hp'
                · rfl
                · exact hstatE p hp'
              · refine List.nodup_cons.mpr ⟨?_, hndE⟩
                intro htid
                have := hninE tid htid
                rw [hdata1] at this
                simp at this
              · intro x hx
                rcases List.mem_cons.mp hx with rfl | hx'
                · exact hfresh
                · intro hxk
                  have h2 := hninE x hx'
                  rw [hdata1] at h2
                  simp only [List.map_append] at h2
                  exact h2 (List.mem_append_left _ hxk)
              · simp [hlenE]

/-- C9: a sequence of `create_ticket` calls that all return produces pairwise
distinct ids — one per call — each absent from the starting registry, and
each inserted as a ticket with status `"new"`. -/
theorem create_tickets_unique (stream : Nat → String) (fuel : Nat) (now : String)
    (specs : List (Int × Bool × String)) (data : BotData)
    (r : List String × BotData)
    (h : create_many stream fuel now specs data = some r) :
    r.1.Nodup ∧ r.1.length = specs.length ∧
    (∀ tid ∈ r.1, lookupTicket data.tickets tid = none) ∧
    (∀ tid ∈ r.1, ∃ t, lookupTicket r.2.tickets tid = some t ∧ t.status = "new") := by
  obtain ⟨tids, d'⟩ := r
  obtain ⟨newE, hE, hmap, hstat, hnd, hnin, hlen⟩ :=
    create_many_strong stream fuel now specs data tids d' h
  refine ⟨hnd, hlen, ?_, ?_⟩
  · intro tid htid
    exact lookupTicket_eq_none.mpr (hnin tid htid)
  · intro tid htid
    have hnone : lookupTicket data.tickets tid = none :=
      lookupTicket_eq_none.mpr (hnin tid htid)
    have hkeys : tid ∈ newE.map Prod.fst := by rw [hmap]; exact htid
    obtain ⟨t, hl, hm⟩ := lookupTicket_of_mem_keys hkeys
    refine ⟨t, ?_, hstat _ hm⟩
    rw [hE, lookupTicket_append_of_none hnone]
    exact hl

/-- Witness for C9: two concrete creations over an injective draw stream. -/
theorem create_tickets_unique_witness :
    ((create_many natStream 2 "T0" [(1, false, "a"), (2, true, "b")] sampleData).getD
      ([], sampleData)).1.Nodup ∧
    ((create_many natStream 2 "T0" [(1, false, "a"), (2, true, "b")] sampleData).getD
      ([], sampleData)).1.length = [(1, false, "a"), ((2 : Int), true, "b")].length :=
  ⟨(create_tickets_unique natStream 2 "T0" [(1, false, "a"), (2, true, "b")] sampleData
      _ (by decide)).1,
   (create_tickets_unique natStream 2 "T0" [(1, false, "a"), (2, true, "b")] sampleData
      _ (by decide)).2.1⟩

/-! ## The uncapped id-generation loop over the full id space -/

theorem genFreshTid_not_mem {stream : Nat → TicketId6} {keys : Finset TicketId6}
    {i fuel : Nat} {tid : TicketId6} (h : genFreshTid stream keys i fuel = some tid) :
    tid ∉ keys := by
  induction fuel generalizing i with
  | zero => simp [genFreshTid] at h
  | succ n ih =>
      rw [genFreshTid] at h
      by_cases hc : stream i ∈ keys
      · rw [if_pos hc] at h
        exact ih h
      · rw [if_neg hc] at h
        cases h
        exact hc

theorem genFreshTid_terminates {stream : Nat → TicketId6} {keys : Finset TicketId6} :
    ∀ fuel i, (∃ j, j < fuel ∧ stream (i + j) ∉ keys) →
      ∃ tid, genFreshTid stream keys i fuel = some tid := by
  intro fuel
  induction fuel with
  | zero =>
      intro i h
      obtain ⟨j, hj, _⟩ := h
      exact absurd hj (Nat.not_lt_zero j)
  | succ m ih =>
      intro i h
      obtain ⟨j, hj, hfresh⟩ := h
      by_cases hc : stream i ∈ keys
      · cases j with
        | zero =>
            rw [Nat.add_zero] at hfresh
            exact absurd hc hfresh
        | succ j2 =>
            have hsh : stream (i + 1 + j2) ∉ keys := by
              have e : i + 1 + j2 = i + (j2 + 1) := by omega
              rw [e]
              exact hfresh
            obtain ⟨tid, htid⟩ := ih (i + 1) ⟨j2, by omega, hsh⟩
            refine ⟨tid, ?_⟩
            rw [genFreshTid, if_pos hc]
            exact htid
      · exact ⟨stream i, by rw [genFreshTid, if_neg hc]⟩

/-- C10: the id-generation retry loop of `create_ticket` has no retry cap and
no error path. Over the exact `36^6`-element id space of `short_ticket_id`:
whenever the registry holds fewer than `36^6` ids a fresh id exists, and the
loop returns one (a fresh id, absent from the registry) as soon as the draw
stream proposes any non-colliding id — in particular within `n+1` draws when
draw `n` is non-colliding. When the registry holds the entire id space the
loop returns nothing at any draw count whatsoever: it never terminates, and
since its only observable outcomes are "a fresh id" or "keep looping", no
internal error is ever surfaced. -/
theorem create_ticket_id_loop (keys : Finset TicketId6) :
    (keys.card < 36 ^ 6 → ∃ tid : TicketId6, tid ∉ keys) ∧
    (∀ stream : Nat → TicketId6, ∀ n, stream n ∉ keys →
      ∃ tid, genFreshTid stream keys 0 (n + 1) = some tid ∧ tid ∉ keys) ∧
    ((∀ tid : TicketId6, tid ∈ keys) →
      ∀ stream : Nat → TicketId6, ∀ i fuel, genFreshTid stream keys i fuel = none) := by
  refine ⟨?_, ?_, ?_⟩
  · intro h
    by_contra hall
    push_neg at hall
    have huniv : keys = Finset.univ := Finset.eq_univ_iff_forall.mpr hall
    rw [huniv, Finset.card_univ] at h
    have hcard : Fintype.card TicketId6 = 36 ^ 6 := by
      rw [Fintype.card_fun]
      simp
    rw [hcard] at h
    exact absurd h (lt_irrefl _)
  · intro stream n hfresh
    obtain ⟨tid, htid⟩ :=
      genFreshTid_terminates (n + 1) 0 ⟨n, Nat.lt_succ_self n, by simpa using hfresh⟩
    exact ⟨tid, htid, genFreshTid_not_mem htid⟩
  · intro hall stream i fuel
    induction fuel generalizing i with
    | zero => rfl
    | succ m ih =>
        rw [genFreshTid, if_pos (hall (stream i))]
        exact ih (i + 1)

/-- Witness for C10: the empty registry (strictly below `36^6` ids, loop
returns a fresh id on the first draw) and the full registry (the loop yields
nothing, here at draw count 5). -/
theorem create_ticket_id_loop_witness :
    (∃ tid : TicketId6, tid ∉ (∅ : Finset TicketId6)) ∧
    (∃ tid, genFreshTid (fun _ _ => 0) (∅ : Finset TicketId6) 0 1 = some tid ∧
      tid ∉ (∅ : Finset TicketId6)) ∧
    genFreshTid (fun _ _ => 0) (Finset.univ : Finset TicketId6) 0 5 = none :=
  ⟨(create_ticket_id_loop ∅).1 (by simp),
   (create_ticket_id_loop ∅).2.1 (fun _ _ => 0) 0 (by simp),
   (create_ticket_id_loop Finset.univ).2.2 (fun tid => Finset.mem_univ tid)
     (fun _ _ => 0) 0 5⟩
